import Mathlib

/-
Verification of the physics core, object pool, spatial grid and peg logic of
the cyber-plinko repository.  JavaScript numbers are modelled as rationals;
`Math.sqrt` is modelled by an explicit function parameter (instantiated with an
exact square root on the perfect-square inputs the concrete scenarios use), and
a JavaScript division that would produce NaN or Infinity (denominator zero) is
modelled as `Option.none`.  Object identity (JS reference equality) is modelled
by a numeric id.
-/

namespace CyberPlinko

/-- Configuration constants from src/config/config.js (CONFIG.PHYSICS and
CONFIG.PERFORMANCE). -/
def GRAVITY : ℚ := 1/4

def FRICTION : ℚ := 995/1000

def BOUNCE : ℚ := 65/100

def MAX_VELOCITY : ℚ := 15

def BALL_BALL_BOUNCE : ℚ := 8/10

def COLLISION_DAMPING : ℚ := 95/100

def COLLISION_GRID_SIZE : ℚ := 50

/-- State of a PhysicsEntity (src/physics/physics-entity.js constructor).
Field defaults follow the constructor defaults (`options.vx || 0`, mass 1,
radius 5, CONFIG friction/bounce/gravity, active, non-static, collidable,
group "default", mask ["default"], age 0, maxAge Infinity).  `maxAge = none`
models the default `Infinity`; `id` models JS object identity; `etype` models
the `type` tag set by subclasses ("ball", "peg"). -/
structure Ent where
  x : ℚ
  y : ℚ
  prevX : ℚ := x
  prevY : ℚ := y
  vx : ℚ := 0
  vy : ℚ := 0
  ax : ℚ := 0
  ay : ℚ := 0
  mass : ℚ := 1
  radius : ℚ := 5
  friction : ℚ := FRICTION
  bounce : ℚ := BOUNCE
  gravity : ℚ := GRAVITY
  isActive : Bool := true
  isStatic : Bool := false
  canCollide : Bool := true
  id : ℕ := 0
  collisionGroup : String := "default"
  collisionMask : List String := ["default"]
  age : ℕ := 0
  maxAge : Option ℕ := none
  etype : String := ""
deriving Repr, DecidableEq

/-- PhysicsEntity.updatePosition (src/physics/physics-entity.js lines 45-86).
No-op when static or inactive; otherwise saves prevX/prevY, advances position
by velocity times deltaTime, increments age and deactivates once age reaches
maxAge.  The acceleration, gravity, friction and MAX_VELOCITY blocks of that
function are commented out in the source, so the velocity is left untouched
here. -/
def updatePosition (e : Ent) (deltaTime : ℚ) : Ent :=
  if e.isStatic || !e.isActive then e
  else
    let e1 := { e with prevX := e.x, prevY := e.y }
    let e2 := { e1 with x := e1.x + e1.vx * deltaTime, y := e1.y + e1.vy * deltaTime }
    let newAge := e2.age + 1
    { e2 with
      age := newAge
      isActive :=
        match e2.maxAge with
        | none => e2.isActive
        | some m => if newAge ≥ m then false else e2.isActive }

/-- PhysicsEntity.isCollidingWith (src/physics/physics-entity.js lines 156-171).
Checks collidability, activity, object identity, then only THIS entity's
collisionMask against the other's collisionGroup, then squared distance
against the squared radius sum. -/
def isCollidingWith (a b : Ent) : Bool :=
  if !a.canCollide || !b.canCollide then false
  else if !a.isActive || !b.isActive then false
  else if a.id = b.id then false
  else if !(a.collisionMask.contains b.collisionGroup) then false
  else
    let dx := b.x - a.x
    let dy := b.y - a.y
    let distanceSquared := dx * dx + dy * dy
    let radiusSum := a.radius + b.radius
    decide (distanceSquared < radiusSum * radiusSum)

/-- CollisionDetector.canCollide (src/physics/collision-detector.js lines
228-234): symmetric OR of the two mask/group checks. -/
def detectorCanCollide (a b : Ent) : Bool :=
  let aCanCollideWithB := a.collisionMask.contains b.collisionGroup
  let bCanCollideWithA := b.collisionMask.contains a.collisionGroup
  aCanCollideWithB || bCanCollideWithA

/-- Fixed physics time step of PhysicsEngine (1/120, physics-engine.js line 10). -/
def fixedTimeStep : ℚ := 1/120

/-- Sub-step cap of PhysicsEngine (physics-engine.js line 11). -/
def maxSubSteps : ℕ := 5

/-- The while loop of PhysicsEngine.update (physics-engine.js lines 35-39):
while the accumulator is at least `step` and fewer than `fuel` sub-steps have
run, consume one `step`.  Returns the remaining accumulator and the number of
sub-steps executed; the recursion fuel is the remaining allowance
`maxSubSteps - subSteps`. -/
def accLoop (step : ℚ) : ℕ → ℚ → ℚ × ℕ
  | 0, acc => (acc, 0)
  | fuel+1, acc =>
    if step ≤ acc then
      let r := accLoop step fuel (acc - step)
      (r.1, r.2 + 1)
    else (acc, 0)

/-- Accumulator behavior of PhysicsEngine.update (physics-engine.js lines
28-43): deltaTime is added to the accumulator, then the fixed-step loop runs.
The effect of each fixedUpdate call on the objects is irrelevant to the
accumulator bookkeeping and is not modelled here. -/
def engineUpdate (timeAccumulator deltaTime : ℚ) : ℚ × ℕ :=
  accLoop fixedTimeStep maxSubSteps (timeAccumulator + deltaTime)

/-- A ripple pushed by Peg.createRippleEffect (src/entities/peg.js lines
206-214). -/
structure Ripple where
  radius : ℚ
  alpha : ℚ
  speed : ℚ
  decay : ℚ
  color : String
deriving Repr, DecidableEq

/-- The part of the Peg state touched by Peg.onHit (src/entities/peg.js). -/
structure PegState where
  hitCount : ℕ
  lastHitTime : ℕ
  consecutiveHits : ℕ
  energyLevel : ℚ
  maxEnergyLevel : ℚ
  isActivated : Bool
  activationTime : ℕ
  targetScale : ℚ
  radius : ℚ
  currentColor : String
  ripples : List Ripple
deriving Repr, DecidableEq

/-- Peg.addEnergy (peg.js lines 199-201). -/
def pegAddEnergy (p : PegState) (amount : ℚ) : PegState :=
  { p with energyLevel := min p.maxEnergyLevel (p.energyLevel + amount) }

/-- Peg.activate (peg.js lines 176-185); the particle spawn touches only the
global particle system. -/
def pegActivate (p : PegState) : PegState :=
  { p with isActivated := true, activationTime := 0, targetScale := 13/10 }

/-- Peg.createRippleEffect (peg.js lines 206-214). -/
def pegCreateRippleEffect (p : PegState) : PegState :=
  { p with
    ripples := p.ripples ++
      [{ radius := p.radius, alpha := 1, speed := 2, decay := 5/100,
         color := p.currentColor }] }

/-- Peg.onHit (src/entities/peg.js lines 145-171), with `currentTime` the
Date.now() timestamp.  Note the source assigns `this.lastHitTime =
currentTime` BEFORE comparing `currentTime - this.lastHitTime < 1000`, so the
comparison reads the freshly assigned value.  applyEffectToBall and
playHitSound act on the ball and the audio system, not on the peg state. -/
def pegOnHit (p : PegState) (currentTime : ℕ) : PegState :=
  let p1 := { p with hitCount := p.hitCount + 1, lastHitTime := currentTime }
  let p2 :=
    if currentTime - p1.lastHitTime < 1000 then
      { p1 with consecutiveHits := p1.consecutiveHits + 1 }
    else
      { p1 with consecutiveHits := 1 }
  pegCreateRippleEffect (pegActivate (pegAddEnergy p2 20))

/-- State of an ObjectPool (src/systems/object-pool.js).  Objects are
identified by numeric ids (modelling JS reference identity); `nextId` models
the factory `createFn`, which always produces a brand-new object.  The JS
`available` array is used as a stack (push/pop at the tail); we keep the
stack top at the head of the list, which preserves the LIFO discipline and
the membership/length semantics.  The `resetFn` reinitializes a reused
object's fields and does not change its identity. -/
structure PoolState where
  available : List ℕ
  inUse : Finset ℕ
  nextId : ℕ
  created : ℕ
  acquired : ℕ
  released : ℕ
  poolHits : ℕ
  poolMisses : ℕ
  maxInUse : ℕ
  releaseErrors : ℕ
deriving DecidableEq

/-- ObjectPool constructor with preallocate(initialSize) (object-pool.js
lines 3-38): initialSize fresh objects are pushed onto `available`. -/
def initState (initialSize : ℕ) : PoolState :=
  { available := (List.range initialSize).reverse
    inUse := ∅
    nextId := initialSize
    created := initialSize
    acquired := 0
    released := 0
    poolHits := 0
    poolMisses := 0
    maxInUse := 0
    releaseErrors := 0 }

/-- ObjectPool.acquire (object-pool.js lines 43-76).  Pops from `available`
when non-empty; if the popped object is already inUse (corruption guard) or
the pool is empty, a brand-new object is created instead (a pool miss).  The
result is always a real object — acquire never returns null. -/
def acquire (s : PoolState) : PoolState × ℕ :=
  let s0 := { s with acquired := s.acquired + 1 }
  match s0.available with
  | [] =>
    let fresh := s0.nextId
    let inUse1 := insert fresh s0.inUse
    ({ s0 with
        available := []
        nextId := fresh + 1
        created := s0.created + 1
        poolMisses := s0.poolMisses + 1
        inUse := inUse1
        maxInUse := max s0.maxInUse inUse1.card }, fresh)
  | obj :: rest =>
    if obj ∈ s0.inUse then
      let fresh := s0.nextId
      let inUse1 := insert fresh s0.inUse
      ({ s0 with
          available := rest
          nextId := fresh + 1
          created := s0.created + 1
          poolMisses := s0.poolMisses + 1
          inUse := inUse1
          maxInUse := max s0.maxInUse inUse1.card }, fresh)
    else
      let inUse1 := insert obj s0.inUse
      ({ s0 with
          available := rest
          poolHits := s0.poolHits + 1
          inUse := inUse1
          maxInUse := max s0.maxInUse inUse1.card }, obj)

/-- ObjectPool.release (object-pool.js lines 81-122).  The JS null check has
no counterpart because object handles here are always real ids.  Releasing
an object that is not inUse is an error returning false; otherwise the
object leaves inUse and is pushed back onto `available` unless the pool is
full (then it is dropped) or already present (error). -/
def release (maxSize : ℕ) (s : PoolState) (obj : ℕ) : PoolState × Bool :=
  if obj ∉ s.inUse then
    ({ s with releaseErrors := s.releaseErrors + 1 }, false)
  else
    let s1 := { s with inUse := s.inUse.erase obj }
    if s1.available.length < maxSize then
      if obj ∈ s1.available then
        ({ s1 with releaseErrors := s1.releaseErrors + 1 }, false)
      else
        ({ s1 with available := obj :: s1.available, released := s1.released + 1 }, true)
    else
      (s1, false)

/-- A step in a sequence of pool operations. -/
inductive PoolOp where
  | acq : PoolOp
  | rel : ℕ → PoolOp
deriving Repr, DecidableEq

/-- Apply one pool operation to a state. -/
def runOp (maxSize : ℕ) (s : PoolState) : PoolOp → PoolState
  | PoolOp.acq => (acquire s).1
  | PoolOp.rel obj => (release maxSize s obj).1

/-- Apply a sequence of acquire/release calls. -/
def runOps (maxSize : ℕ) (s : PoolState) (ops : List PoolOp) : PoolState :=
  ops.foldl (runOp maxSize) s

/-- Pool well-formedness: no duplicates in available, available disjoint
from inUse, and every live object id was produced by the factory. -/
def PoolInv (s : PoolState) : Prop :=
  s.available.Nodup ∧
  (∀ o ∈ s.available, o ∉ s.inUse) ∧
  (∀ o ∈ s.available, o < s.nextId) ∧
  (∀ o ∈ s.inUse, o < s.nextId)

/-- CollisionDetector.separateObjects (collision-detector.js lines 272-293):
positional correction along the collision normal; two dynamic bodies split
the overlap by mass ratio (halved), a single dynamic body takes the full
overlap, static bodies are left in place. -/
def separateObjects (objA objB : Ent) (nx ny overlap : ℚ) : Ent × Ent :=
  let totalMass := objA.mass + objB.mass
  if !objA.isStatic && !objB.isStatic then
    let separationA := (overlap * objB.mass / totalMass) * (1/2)
    let separationB := (overlap * objA.mass / totalMass) * (1/2)
    ({ objA with x := objA.x - nx * separationA, y := objA.y - ny * separationA },
     { objB with x := objB.x + nx * separationB, y := objB.y + ny * separationB })
  else if !objA.isStatic then
    ({ objA with x := objA.x - nx * overlap, y := objA.y - ny * overlap }, objB)
  else if !objB.isStatic then
    (objA, { objB with x := objB.x + nx * overlap, y := objB.y + ny * overlap })
  else
    (objA, objB)

/-- CollisionDetector.resolveVelocities (collision-detector.js lines
298-336): impulse-based velocity resolution with restitution
min(bounceA, bounceB) and COLLISION_DAMPING, applied only to non-static
sides, and skipped entirely when the normal relative velocity
(vA - vB) . n is positive. -/
def resolveVelocities (objA objB : Ent) (nx ny : ℚ) : Ent × Ent :=
  let relativeVelocityX := objA.vx - objB.vx
  let relativeVelocityY := objA.vy - objB.vy
  let velocityAlongNormal := relativeVelocityX * nx + relativeVelocityY * ny
  if velocityAlongNormal > 0 then (objA, objB)
  else
    let restitution := min objA.bounce objB.bounce
    let j := -(1 + restitution) * velocityAlongNormal
    let impulse := j / (1 / objA.mass + 1 / objB.mass)
    let objA1 :=
      if objA.isStatic then objA
      else { objA with
              vx := objA.vx + impulse * nx / objA.mass
              vy := objA.vy + impulse * ny / objA.mass }
    let objB1 :=
      if objB.isStatic then objB
      else { objB with
              vx := objB.vx - impulse * nx / objB.mass
              vy := objB.vy - impulse * ny / objB.mass }
    let objA2 :=
      if objA1.isStatic then objA1
      else { objA1 with
              vx := objA1.vx * COLLISION_DAMPING
              vy := objA1.vy * COLLISION_DAMPING }
    let objB2 :=
      if objB1.isStatic then objB1
      else { objB1 with
              vx := objB1.vx * COLLISION_DAMPING
              vy := objB1.vy * COLLISION_DAMPING }
    (objA2, objB2)

/-- CollisionDetector.resolveCollision (collision-detector.js lines 239-267).
`sq` models Math.sqrt; `randCos`/`randSin` model the cosine and sine of the
random angle drawn in the zero-distance branch.  At distance zero BOTH
objects are displaced (no static check in that branch); otherwise position
separation and velocity resolution run along the normalized normal. -/
def resolveCollision (sq : ℚ → ℚ) (randCos randSin : ℚ) (objA objB : Ent) :
    Ent × Ent :=
  let dx := objB.x - objA.x
  let dy := objB.y - objA.y
  let distance := sq (dx * dx + dy * dy)
  if distance = 0 then
    let separationDistance := (objA.radius + objB.radius) * (1/2)
    ({ objA with
        x := objA.x - randCos * separationDistance
        y := objA.y - randSin * separationDistance },
     { objB with
        x := objB.x + randCos * separationDistance
        y := objB.y + randSin * separationDistance })
  else
    let overlap := (objA.radius + objB.radius) - distance
    if overlap ≤ 0 then (objA, objB)
    else
      let nx := dx / distance
      let ny := dy / distance
      let p := separateObjects objA objB nx ny overlap
      resolveVelocities p.1 p.2 nx ny

/-- CollisionDetector.handleBallBallCollision (collision-detector.js lines
379-422): one-dimensional elastic exchange along the normal, scaled by the
global CONFIG.PHYSICS.BALL_BALL_BOUNCE (not the balls' own bounce); the
particle effects and callbacks touch no ball state modelled here. -/
def handleBallBallCollision (sq : ℚ → ℚ) (ballA ballB : Ent) : Ent × Ent :=
  let restitution := BALL_BALL_BOUNCE
  let totalMass := ballA.mass + ballB.mass
  let massRatioA := (ballA.mass - ballB.mass) / totalMass
  let massRatioB := (ballB.mass - ballA.mass) / totalMass
  let momentumFactor := 2 / totalMass
  let dx := ballB.x - ballA.x
  let dy := ballB.y - ballA.y
  let distance := sq (dx * dx + dy * dy)
  if distance > 0 then
    let nx := dx / distance
    let ny := dy / distance
    let v1n := ballA.vx * nx + ballA.vy * ny
    let v2n := ballB.vx * nx + ballB.vy * ny
    let newV1n := (massRatioA * v1n + momentumFactor * ballB.mass * v2n) * restitution
    let newV2n := (massRatioB * v2n + momentumFactor * ballA.mass * v1n) * restitution
    ({ ballA with
        vx := ballA.vx + (newV1n - v1n) * nx
        vy := ballA.vy + (newV1n - v1n) * ny },
     { ballB with
        vx := ballB.vx + (newV2n - v2n) * nx
        vy := ballB.vy + (newV2n - v2n) * ny })
  else
    (ballA, ballB)

/-- The per-pair processing of CollisionDetector.detectCollisions (lines
185-192) for a colliding ball-ball pair: resolveCollision followed by the
onCollision handler, which dispatches to handleBallBallCollision. -/
def processBallBallPair (sq : ℚ → ℚ) (randCos randSin : ℚ) (objA objB : Ent) :
    Ent × Ent :=
  let p := resolveCollision sq randCos randSin objA objB
  handleBallBallCollision sq p.1 p.2

/-- Ball A of the head-on scenario: position (100,100), velocity (5,0),
radius 6, mass 1, bounce 1. -/
def ballScA : Ent :=
  { x := 100, y := 100, vx := 5, vy := 0, radius := 6, mass := 1, bounce := 1,
    id := 1, etype := "ball" }

/-- Ball B of the head-on scenario: position (110,100), velocity (-5,0),
radius 6, mass 1, bounce 1. -/
def ballScB : Ent :=
  { x := 110, y := 100, vx := -5, vy := 0, radius := 6, mass := 1, bounce := 1,
    id := 2, etype := "ball" }

/-- A dynamic ball used by the coincident-center scenario. -/
def coincA : Ent :=
  { x := 5, y := 5, radius := 3, id := 3 }

/-- A static peg at the same position as coincA. -/
def coincB : Ent :=
  { x := 5, y := 5, radius := 3, id := 4, isStatic := true }

/-- Result of the head-on scenario for ball A: separated by half the
overlap and with velocity set by the ball-ball handler. -/
def ballScResA : Ent :=
  { x := 199/2, y := 100, prevX := 100, prevY := 100, vx := -4, vy := 0,
    radius := 6, mass := 1, bounce := 1, id := 1, etype := "ball" }

/-- Result of the head-on scenario for ball B. -/
def ballScResB : Ent :=
  { x := 221/2, y := 100, prevX := 110, prevY := 100, vx := 4, vy := 0,
    radius := 6, mass := 1, bounce := 1, id := 2, etype := "ball" }

/-- A raycast hit record (collision-detector.js lines 594-602).  The normal
components are produced by dividing by the point-to-center distance;
`Option.none` models the JS NaN produced when that distance is zero. -/
structure RayHit where
  objId : ℕ
  px : ℚ
  py : ℚ
  distance : ℕ
  normalX : Option ℚ
  normalY : Option ℚ
deriving Repr, DecidableEq

/-- JavaScript division: yields NaN (or Infinity) when the denominator is 0,
modelled as none. -/
def jdiv (a b : ℚ) : Option ℚ :=
  if b = 0 then none else some (a / b)

/-- Inner object loop of CollisionDetector.raycast (lines 589-605): skip
inactive objects, hit the first object whose center is within its radius of
the sample point, and stop (break). -/
def rayFirstHit (sq : ℚ → ℚ) (x y : ℚ) (i : ℕ) : List Ent → Option RayHit
  | [] => none
  | obj :: rest =>
    if obj.isActive = false then rayFirstHit sq x y i rest
    else
      let dist := sq ((x - obj.x) * (x - obj.x) + (y - obj.y) * (y - obj.y))
      if dist ≤ obj.radius then
        some { objId := obj.id, px := x, py := y, distance := i,
               normalX := jdiv (x - obj.x) dist,
               normalY := jdiv (y - obj.y) dist }
      else rayFirstHit sq x y i rest

/-- CollisionDetector.raycast (collision-detector.js lines 573-609): sample
ceil(length)+1 points along the normalized direction and collect the first
hit at each point.  (PhysicsEngine.raycast, physics-engine.js lines 206-242,
is the same algorithm.) -/
def raycast (sq : ℚ → ℚ) (startX startY endX endY : ℚ) (objects : List Ent) :
    List RayHit :=
  let dx := endX - startX
  let dy := endY - startY
  let length := sq (dx * dx + dy * dy)
  if length = 0 then []
  else
    let dirX := dx / length
    let dirY := dy / length
    let steps := (⌈length⌉).toNat
    (List.range (steps + 1)).filterMap fun (i : ℕ) =>
      rayFirstHit sq (startX + dirX * (i : ℚ)) (startY + dirY * (i : ℚ)) i objects

/-- An active object whose center lies exactly on a sample point of the ray
from (0,0) to (10,0). -/
def rayObj : Ent :=
  { x := 3, y := 0, radius := 1/2, id := 7 }

/-- A SpatialGrid (collision-detector.js lines 2-10): cols and rows are
ceil(width / cellSize) and ceil(height / cellSize); `buckets` maps a cell key
(col, row) to its object list, the empty list standing for an absent Map
entry. -/
structure Grid where
  width : ℚ
  height : ℚ
  cellSize : ℚ
  cols : ℤ
  rows : ℤ
  buckets : ℤ × ℤ → List ℕ

/-- SpatialGrid constructor: an empty grid. -/
def mkGrid (w h cs : ℚ) : Grid :=
  { width := w, height := h, cellSize := cs
    cols := ⌈w / cs⌉, rows := ⌈h / cs⌉
    buckets := fun _ => [] }

/-- SpatialGrid.getCells (collision-detector.js lines 53-66): the cell range
[floor((x-r)/cellSize) .. floor((x+r)/cellSize)] in both axes, clamped to
[0, cols-1] and [0, rows-1], enumerated column-major. -/
def getCells (g : Grid) (x y radius : ℚ) : List (ℤ × ℤ) :=
  let minX := max 0 ⌊(x - radius) / g.cellSize⌋
  let maxX := min (g.cols - 1) ⌊(x + radius) / g.cellSize⌋
  let minY := max 0 ⌊(y - radius) / g.cellSize⌋
  let maxY := min (g.rows - 1) ⌊(y + radius) / g.cellSize⌋
  (List.range (maxX + 1 - minX).toNat).flatMap fun (i : ℕ) =>
    (List.range (maxY + 1 - minY).toNat).map fun (j : ℕ) =>
      (minX + (i : ℤ), minY + (j : ℤ))

/-- SpatialGrid.addObject (collision-detector.js lines 22-31): append the
object to the bucket of every cell returned by getCells. -/
def addObject (g : Grid) (obj : ℕ) (x y radius : ℚ) : Grid :=
  let cells := getCells g x y radius
  { g with
    buckets :=
      cells.foldl
        (fun bk cell => fun key => if key = cell then bk key ++ [obj] else bk key)
        g.buckets }

/-- SpatialGrid.getNearbyObjects (collision-detector.js lines 36-48): the
union of the buckets of the query cell range; the JS Set accumulation is
modelled by dedup. -/
def getNearbyObjects (g : Grid) (x y radius : ℚ) : List ℕ :=
  ((getCells g x y radius).flatMap g.buckets).dedup

/-- The scenario grid: canvas 600 x 700, cellSize 50, with entity 1 of
radius 5 inserted at (52, 52). -/
def gridSc : Grid := addObject (mkGrid 600 700 50) 1 52 52 5

/-- Claim C1 (amended): PhysicsEntity.updatePosition(dt) is a no-op if the
entity is static or inactive; otherwise it saves prevPosition, advances
position by velocity times dt, increments age and deactivates when
age reaches maxAge — and it leaves velocity and acceleration unchanged (the
acceleration/friction/MAX_VELOCITY integration is commented out in this
function). -/
theorem updatePosition_characterization (e : Ent) (dt : ℚ) :
    ((e.isStatic = true ∨ e.isActive = false) → updatePosition e dt = e) ∧
    (e.isStatic = false → e.isActive = true →
      (updatePosition e dt).prevX = e.x ∧
      (updatePosition e dt).prevY = e.y ∧
      (updatePosition e dt).x = e.x + e.vx * dt ∧
      (updatePosition e dt).y = e.y + e.vy * dt ∧
      (updatePosition e dt).vx = e.vx ∧
      (updatePosition e dt).vy = e.vy ∧
      (updatePosition e dt).ax = e.ax ∧
      (updatePosition e dt).ay = e.ay ∧
      (updatePosition e dt).age = e.age + 1 ∧
      (updatePosition e dt).isActive =
        (match e.maxAge with
         | none => true
         | some m => decide (e.age + 1 < m))) := by
  constructor
  · intro h
    unfold updatePosition
    rcases h with h | h <;> simp [h]
  · intro hs ha
    cases hm : e.maxAge with
    | none =>
      unfold updatePosition
      simp [hs, ha, hm]
    | some m =>
      by_cases hage : e.age + 1 ≥ m
      · have h1 : ¬ (e.age + 1 < m) := by omega
        unfold updatePosition
        simp [hs, ha, hm, hage, h1]
      · have h1 : e.age + 1 < m := by omega
        unfold updatePosition
        simp [hs, ha, hm, hage, h1]

/-- Witness for updatePosition_characterization at a concrete entity. -/
theorem updatePosition_characterization_witness :
    (updatePosition { x := 0, y := 0, vx := 4, ax := 1 : Ent} 1).x = 0 + 4 * 1 ∧
    (updatePosition { x := 0, y := 0, vx := 4, ax := 1 : Ent} 1).vx = 4 := by
  have h := updatePosition_characterization { x := 0, y := 0, vx := 4, ax := 1 : Ent} 1
  have h2 := h.2 rfl rfl
  exact ⟨h2.2.2.1, h2.2.2.2.2.1⟩

/-- Counterexample to claim C1 as stated: for an active dynamic entity with
acceleration 1 the claim predicts the velocity advances by acceleration
times dt, but updatePosition leaves the velocity unchanged (the integration
code is commented out). -/
theorem updatePosition_no_acceleration_counterexample :
    (updatePosition { x := 0, y := 0, vx := 4, ax := 1 : Ent} 1).vx ≠
      (4 : ℚ) + 1 * 1 := by
  unfold updatePosition
  norm_num

/-- Claim C2 (amended): CollisionDetector.canCollide is symmetric for all
group/mask configurations (the OR of the two one-sided checks), while
PhysicsEntity.isCollidingWith consults only the receiver's mask and is not
symmetric. -/
theorem detectorCanCollide_symm (a b : Ent) :
    detectorCanCollide a b = detectorCanCollide b a := by
  unfold detectorCanCollide
  exact Bool.or_comm _ _

/-- Counterexample to claim C2 as stated: two overlapping active entities
where the group of B is in the mask of A but not conversely.
A.isCollidingWith(B) is true while B.isCollidingWith(A) is false, so
collision eligibility as implemented in PhysicsEntity.isCollidingWith is not
symmetric. -/
theorem isCollidingWith_asymmetric_counterexample :
    isCollidingWith
        { x := 0, y := 0, id := 0, collisionGroup := "a", collisionMask := ["b"] : Ent}
        { x := 1, y := 0, id := 1, collisionGroup := "b", collisionMask := [] : Ent}
      = true ∧
    isCollidingWith
        { x := 1, y := 0, id := 1, collisionGroup := "b", collisionMask := [] : Ent}
        { x := 0, y := 0, id := 0, collisionGroup := "a", collisionMask := ["b"] : Ent}
      = false := by
  constructor
  · unfold isCollidingWith
    norm_num [List.contains]
  · unfold isCollidingWith
    norm_num [List.contains]

/-- Helper: full characterization of the fixed-step loop. -/
lemma accLoop_spec (step : ℚ) :
    ∀ fuel acc,
      (accLoop step fuel acc).1 = acc - (accLoop step fuel acc).2 * step ∧
      (accLoop step fuel acc).2 ≤ fuel ∧
      ((accLoop step fuel acc).2 < fuel → (accLoop step fuel acc).1 < step) ∧
      (acc < step → (accLoop step fuel acc).2 = 0) := by
  intro fuel
  induction fuel with
  | zero =>
    intro acc
    refine ⟨by simp [accLoop], le_refl _, ?_, fun _ => rfl⟩
    intro h
    exact absurd h (by simp [accLoop])
  | succ n ih =>
    intro acc
    by_cases hc : step ≤ acc
    · have hrec := ih (acc - step)
      constructor
      · simp only [accLoop, if_pos hc]
        push_cast
        rw [hrec.1]
        ring_nf
      · constructor
        · simp only [accLoop, if_pos hc]
          exact Nat.succ_le_succ hrec.2.1
        · constructor
          · simp only [accLoop, if_pos hc]
            intro hlt
            exact hrec.2.2.1 (Nat.lt_of_succ_lt_succ hlt)
          · intro hacc
            exact absurd hc (not_le.mpr hacc)
    · refine ⟨?_, ?_, ?_, ?_⟩ <;> simp [accLoop, if_neg hc]
      exact lt_of_not_le hc

/-- Claim C4 (amended): PhysicsEngine.update adds dt to the accumulator and
runs sub-steps each consuming exactly fixedTimeStep, at most maxSubSteps per
frame and only while the accumulator is at least fixedTimeStep; leftover time
below one step is carried to the next frame; however, when the maxSubSteps
cap is hit the excess backlog REMAINS in the accumulator (it is carried, not
dropped — the loop never resets the accumulator). -/
theorem engineUpdate_accumulator_characterization (acc dt : ℚ) :
    (engineUpdate acc dt).1 = acc + dt - (engineUpdate acc dt).2 * fixedTimeStep ∧
    (engineUpdate acc dt).2 ≤ maxSubSteps ∧
    ((engineUpdate acc dt).2 < maxSubSteps → (engineUpdate acc dt).1 < fixedTimeStep) ∧
    (acc + dt < fixedTimeStep → (engineUpdate acc dt).2 = 0) := by
  have h := accLoop_spec fixedTimeStep maxSubSteps (acc + dt)
  exact h

/-- Witness for engineUpdate_accumulator_characterization: a frame with a
small deltaTime runs zero sub-steps and carries the whole accumulator. -/
theorem engineUpdate_accumulator_witness :
    (engineUpdate 0 (1/240)).2 = 0 ∧ (engineUpdate 0 (1/240)).1 < fixedTimeStep := by
  have h := engineUpdate_accumulator_characterization 0 (1/240)
  have h0 : (engineUpdate 0 (1/240)).2 = 0 :=
    h.2.2.2 (by norm_num [fixedTimeStep])
  refine ⟨h0, h.2.2.1 ?_⟩
  rw [h0]
  norm_num [maxSubSteps]

/-- Counterexample to claim C4 as stated: with an empty accumulator and a lag
spike of deltaTime = 10 fixed steps, the loop caps at 5 sub-steps but the
excess backlog of 5 full steps stays in the accumulator (5/120 is at least
fixedTimeStep = 1/120), so the backlog is retained for the next frame rather
than dropped. -/
theorem engineUpdate_backlog_retained_counterexample :
    engineUpdate 0 (10/120) = (5/120, 5) ∧
    fixedTimeStep ≤ (engineUpdate 0 (10/120)).1 := by
  have hv : engineUpdate 0 (10/120) = (5/120, 5) := by
    norm_num [engineUpdate, accLoop, fixedTimeStep, maxSubSteps]
  refine ⟨hv, ?_⟩
  rw [hv]
  norm_num [fixedTimeStep]

/-- Claim C10: because Peg.onHit reassigns lastHitTime to currentTime before
the consecutive-hit comparison, the comparison currentTime - lastHitTime
< 1000 always reads 0 < 1000 and is true, so consecutiveHits is incremented
on every hit regardless of the elapsed time since the previous hit. -/
theorem pegOnHit_always_increments (p : PegState) (currentTime : ℕ) :
    (pegOnHit p currentTime).consecutiveHits = p.consecutiveHits + 1 ∧
    (pegOnHit p currentTime).lastHitTime = currentTime := by
  unfold pegOnHit pegCreateRippleEffect pegActivate pegAddEnergy
  simp

/-- Helper: the initial pool satisfies the invariant. -/
lemma poolInv_init (initialSize : ℕ) : PoolInv (initState initialSize) := by
  refine ⟨?_, ?_, ?_, ?_⟩
  · exact (List.nodup_reverse).mpr (List.nodup_range _)
  · intro o _ ho
    simp [initState] at ho
  · intro o ho
    simp only [initState, List.mem_reverse, List.mem_range] at ho ⊢
    exact ho
  · intro o ho
    simp [initState] at ho

/-- Helper: acquire on an empty pool creates a fresh object. -/
lemma acquire_eq_nil (s : PoolState) (hav : s.available = []) :
    acquire s =
      ({ s with
          acquired := s.acquired + 1
          nextId := s.nextId + 1
          created := s.created + 1
          poolMisses := s.poolMisses + 1
          inUse := insert s.nextId s.inUse
          maxInUse := max s.maxInUse (insert s.nextId s.inUse).card }, s.nextId) := by
  simp [acquire, hav]

/-- Helper: acquire on a non-empty pool whose top object is not inUse
reuses that object. -/
lemma acquire_eq_cons (s : PoolState) (obj : ℕ) (rest : List ℕ)
    (hav : s.available = obj :: rest) (hobj : obj ∉ s.inUse) :
    acquire s =
      ({ s with
          acquired := s.acquired + 1
          available := rest
          poolHits := s.poolHits + 1
          inUse := insert obj s.inUse
          maxInUse := max s.maxInUse (insert obj s.inUse).card }, obj) := by
  simp [acquire, hav, hobj]

/-- Helper: release of an object that is not inUse only bumps the error
counter. -/
lemma release_eq_notin (maxSize : ℕ) (s : PoolState) (obj : ℕ)
    (hin : obj ∉ s.inUse) :
    release maxSize s obj = ({ s with releaseErrors := s.releaseErrors + 1 }, false) := by
  simp [release, hin]

/-- Helper: a successful release pushes the object back onto the pool. -/
lemma release_eq_push (maxSize : ℕ) (s : PoolState) (obj : ℕ)
    (hin : obj ∈ s.inUse) (hlen : s.available.length < maxSize)
    (hnotav : obj ∉ s.available) :
    release maxSize s obj =
      ({ s with
          inUse := s.inUse.erase obj
          available := obj :: s.available
          released := s.released + 1 }, true) := by
  simp [release, hin, hlen, hnotav]

/-- Helper: release into a full pool drops the object. -/
lemma release_eq_full (maxSize : ℕ) (s : PoolState) (obj : ℕ)
    (hin : obj ∈ s.inUse) (hlen : ¬ s.available.length < maxSize) :
    release maxSize s obj = ({ s with inUse := s.inUse.erase obj }, false) := by
  simp [release, hin, hlen]

/-- Helper: release of an inUse object that is (erroneously) also in the
available list bumps the error counter. -/
lemma release_eq_dup (maxSize : ℕ) (s : PoolState) (obj : ℕ)
    (hin : obj ∈ s.inUse) (hlen : s.available.length < maxSize)
    (hav : obj ∈ s.available) :
    release maxSize s obj =
      ({ s with
          inUse := s.inUse.erase obj
          releaseErrors := s.releaseErrors + 1 }, false) := by
  simp [release, hin, hlen, hav]

/-- Helper: acquire preserves the pool invariant. -/
lemma poolInv_acquire (s : PoolState) (h : PoolInv s) : PoolInv (acquire s).1 := by
  obtain ⟨hnd, hdisj, hbA, hbU⟩ := h
  cases hav : s.available with
  | nil =>
    rw [acquire_eq_nil s hav]
    refine ⟨?_, ?_, ?_, ?_⟩
    · exact hnd
    · intro o ho
      rw [hav] at ho
      simp at ho
    · intro o ho
      rw [hav] at ho
      simp at ho
    · intro o ho
      simp only [Finset.mem_insert] at ho
      show o < s.nextId + 1
      rcases ho with rfl | ho
      · omega
      · have := hbU o ho
        omega
  | cons obj rest =>
    have hobj : obj ∉ s.inUse := hdisj obj (by rw [hav]; exact List.mem_cons_self _ _)
    rw [acquire_eq_cons s obj rest hav hobj]
    have hnd2 : (obj :: rest).Nodup := hav ▸ hnd
    have hndr : rest.Nodup := hnd2.of_cons
    have hobjr : obj ∉ rest := (List.nodup_cons.mp hnd2).1
    refine ⟨hndr, ?_, ?_, ?_⟩
    · intro o ho
      simp only [Finset.mem_insert]
      push_neg
      refine ⟨fun hoe => hobjr (hoe ▸ ho), ?_⟩
      exact hdisj o (by rw [hav]; exact List.mem_cons_of_mem _ ho)
    · intro o ho
      exact hbA o (by rw [hav]; exact List.mem_cons_of_mem _ ho)
    · intro o ho
      simp only [Finset.mem_insert] at ho
      rcases ho with rfl | ho
      · exact hbA o (by rw [hav]; exact List.mem_cons_self _ _)
      · exact hbU o ho

/-- Helper: release preserves the pool invariant. -/
lemma poolInv_release (maxSize : ℕ) (s : PoolState) (obj : ℕ) (h : PoolInv s) :
    PoolInv (release maxSize s obj).1 := by
  obtain ⟨hnd, hdisj, hbA, hbU⟩ := h
  by_cases hin : obj ∈ s.inUse
  · have hnotav : obj ∉ s.available := fun hmem => hdisj obj hmem hin
    by_cases hlen : s.available.length < maxSize
    · rw [release_eq_push maxSize s obj hin hlen hnotav]
      refine ⟨?_, ?_, ?_, ?_⟩
      · exact List.nodup_cons.mpr ⟨hnotav, hnd⟩
      · intro o ho
        rcases List.mem_cons.mp ho with rfl | ho
        · exact Finset.not_mem_erase _ _
        · exact fun hoe => hdisj o ho (Finset.mem_of_mem_erase hoe)
      · intro o ho
        rcases List.mem_cons.mp ho with rfl | ho
        · exact hbU o hin
        · exact hbA o ho
      · intro o ho
        exact hbU o (Finset.mem_of_mem_erase ho)
    · rw [release_eq_full maxSize s obj hin hlen]
      refine ⟨hnd, ?_, hbA, ?_⟩
      · intro o ho
        exact fun hoe => hdisj o ho (Finset.mem_of_mem_erase hoe)
      · intro o ho
        exact hbU o (Finset.mem_of_mem_erase ho)
  · rw [release_eq_notin maxSize s obj hin]
    exact ⟨hnd, hdisj, hbA, hbU⟩

/-- Helper: any sequence of pool operations preserves the invariant. -/
lemma poolInv_runOps (maxSize : ℕ) (ops : List PoolOp) (s : PoolState)
    (h : PoolInv s) : PoolInv (runOps maxSize s ops) := by
  induction ops generalizing s with
  | nil => exact h
  | cons op rest ih =>
    cases op with
    | acq => exact ih _ (poolInv_acquire s h)
    | rel obj => exact ih _ (poolInv_release maxSize s obj h)

/-- Claim C3: after any sequence of acquire/release calls starting from a
freshly constructed pool, `available` and `inUse` are disjoint and
`available` holds no duplicates; and release of an object not currently
inUse returns false and leaves both `available` and `inUse` unchanged. -/
theorem pool_disjoint_invariant :
    (∀ (maxSize initialSize : ℕ) (ops : List PoolOp),
      (∀ o ∈ (runOps maxSize (initState initialSize) ops).available,
        o ∉ (runOps maxSize (initState initialSize) ops).inUse) ∧
      (runOps maxSize (initState initialSize) ops).available.Nodup) ∧
    (∀ (maxSize : ℕ) (s : PoolState) (obj : ℕ), obj ∉ s.inUse →
      (release maxSize s obj).2 = false ∧
      (release maxSize s obj).1.available = s.available ∧
      (release maxSize s obj).1.inUse = s.inUse) := by
  constructor
  · intro maxSize initialSize ops
    have h := poolInv_runOps maxSize ops _ (poolInv_init initialSize)
    exact ⟨h.2.1, h.1⟩
  · intro maxSize s obj hin
    rw [release_eq_notin maxSize s obj hin]
    exact ⟨rfl, rfl, rfl⟩

/-- Witness for pool_disjoint_invariant at a concrete pool and a concrete
foreign release. -/
theorem pool_disjoint_invariant_witness :
    (∀ o ∈ (runOps 2 (initState 1) [PoolOp.acq, PoolOp.rel 0]).available,
      o ∉ (runOps 2 (initState 1) [PoolOp.acq, PoolOp.rel 0]).inUse) ∧
    (release 2 (initState 1) 5).2 = false ∧
    (release 2 (initState 1) 5).1.available = (initState 1).available := by
  refine ⟨(pool_disjoint_invariant.1 2 1 [PoolOp.acq, PoolOp.rel 0]).1, ?_, ?_⟩
  · exact (pool_disjoint_invariant.2 2 (initState 1) 5 (by simp [initState])).1
  · exact (pool_disjoint_invariant.2 2 (initState 1) 5 (by simp [initState])).2.1

/-- Claim C8: acquire on an empty available list falls back to direct
construction (never null — the embedding is total and returns the fresh
factory object), marks it inUse and increments the miss counter; and
release of an inUse object when the available list already holds maxSize
objects returns false and drops the object: it ends up in neither
`available` nor `inUse`. -/
theorem acquire_fallback_and_full_pool_release :
    (∀ s : PoolState, s.available = [] →
      (acquire s).2 = s.nextId ∧
      (acquire s).2 ∈ (acquire s).1.inUse ∧
      (acquire s).1.poolMisses = s.poolMisses + 1 ∧
      (acquire s).1.created = s.created + 1) ∧
    (∀ (maxSize : ℕ) (s : PoolState) (obj : ℕ),
      obj ∈ s.inUse → obj ∉ s.available → s.available.length = maxSize →
      (release maxSize s obj).2 = false ∧
      (release maxSize s obj).1.available = s.available ∧
      obj ∉ (release maxSize s obj).1.inUse ∧
      obj ∉ (release maxSize s obj).1.available) := by
  constructor
  · intro s hav
    rw [acquire_eq_nil s hav]
    exact ⟨rfl, Finset.mem_insert_self _ _, rfl, rfl⟩
  · intro maxSize s obj hin hnotav hlen
    rw [release_eq_full maxSize s obj hin (by omega)]
    exact ⟨rfl, rfl, Finset.not_mem_erase _ _, hnotav⟩

/-- Witness for acquire_fallback_and_full_pool_release: an empty pool with
one object in use and maxSize 0. -/
theorem acquire_fallback_witness :
    (acquire (initState 0)).2 = 0 ∧
    (release 0 { initState 1 with available := [], inUse := {0} } 0).2 = false := by
  constructor
  · have h := (acquire_fallback_and_full_pool_release.1 (initState 0) (by simp [initState])).1
    simpa [initState] using h
  · exact (acquire_fallback_and_full_pool_release.2 0
      { initState 1 with available := [], inUse := {0} } 0
      (by simp) (by simp) (by simp)).1

/-- Helper: Rat.sqrt is the exact square root on perfect squares; Math.sqrt
agrees with it on every value produced by the concrete scenarios below. -/
lemma rat_sqrt_of_sq (a b : ℚ) (hb : 0 ≤ b) (h : a = b * b) : Rat.sqrt a = b := by
  rw [h, Rat.sqrt_eq, abs_of_nonneg hb]

/-- Claim C7 (amended): when the two centers coincide (distance exactly 0)
the resolver takes the random-direction branch: it is total, divides by
nothing, and displaces the two bodies by half the radius sum along the
random direction — but in that branch it moves BOTH bodies, a static body
included; only the nonzero-distance separation (separateObjects) leaves
static bodies in place. -/
theorem resolveCollision_zero_distance_characterization :
    (∀ (sq : ℚ → ℚ) (randCos randSin : ℚ) (objA objB : Ent),
      sq ((objB.x - objA.x) * (objB.x - objA.x) +
          (objB.y - objA.y) * (objB.y - objA.y)) = 0 →
      (resolveCollision sq randCos randSin objA objB).1.x =
        objA.x - randCos * ((objA.radius + objB.radius) * (1/2)) ∧
      (resolveCollision sq randCos randSin objA objB).1.y =
        objA.y - randSin * ((objA.radius + objB.radius) * (1/2)) ∧
      (resolveCollision sq randCos randSin objA objB).2.x =
        objB.x + randCos * ((objA.radius + objB.radius) * (1/2)) ∧
      (resolveCollision sq randCos randSin objA objB).2.y =
        objB.y + randSin * ((objA.radius + objB.radius) * (1/2)) ∧
      (resolveCollision sq randCos randSin objA objB).1.vx = objA.vx ∧
      (resolveCollision sq randCos randSin objA objB).2.vx = objB.vx) ∧
    (∀ (objA objB : Ent) (nx ny overlap : ℚ),
      (objA.isStatic = true → (separateObjects objA objB nx ny overlap).1 = objA) ∧
      (objB.isStatic = true → (separateObjects objA objB nx ny overlap).2 = objB)) := by
  constructor
  · intro sq randCos randSin objA objB h
    unfold resolveCollision
    rw [if_pos h]
    exact ⟨rfl, rfl, rfl, rfl, rfl, rfl⟩
  · intro objA objB nx ny overlap
    constructor
    · intro hA
      unfold separateObjects
      by_cases hB : objB.isStatic <;> simp [hA, hB]
    · intro hB
      unfold separateObjects
      by_cases hA : objA.isStatic <;> simp [hA, hB]

/-- Witness for resolveCollision_zero_distance_characterization at the
concrete coincident pair (random direction (1,0)). -/
theorem resolveCollision_zero_distance_witness :
    (resolveCollision Rat.sqrt 1 0 coincA coincB).1.x = coincA.x - 1 * 3 ∧
    (separateObjects coincA coincB 1 0 2).2 = coincB := by
  constructor
  · have h0 : Rat.sqrt ((coincB.x - coincA.x) * (coincB.x - coincA.x) +
        (coincB.y - coincA.y) * (coincB.y - coincA.y)) = 0 := by
      apply rat_sqrt_of_sq _ 0 le_rfl
      norm_num [coincA, coincB]
    have h := (resolveCollision_zero_distance_characterization.1
      Rat.sqrt 1 0 coincA coincB h0).1
    rw [h]
    norm_num [coincA, coincB]
  · exact (resolveCollision_zero_distance_characterization.2 coincA coincB 1 0 2).2 rfl

/-- Counterexample to claim C7 as stated: resolving the coincident pair of a
dynamic ball and a STATIC peg at (5,5) with random direction (1,0) moves
the static peg from x = 5 to x = 8 — the zero-distance branch has no static
guard, so a static body IS moved by the separation. -/
theorem resolveCollision_moves_static_counterexample :
    coincB.isStatic = true ∧
    (resolveCollision Rat.sqrt 1 0 coincA coincB).2.x = 8 := by
  constructor
  · rfl
  · have h0 : Rat.sqrt (((5:ℚ) - 5) * (5 - 5) + ((5:ℚ) - 5) * (5 - 5)) = 0 := by
      apply rat_sqrt_of_sq _ 0 le_rfl
      norm_num
    unfold resolveCollision
    norm_num [coincA, coincB, h0]

/-- Helper: exact evaluation of the head-on two-ball scenario through
resolveCollision followed by handleBallBallCollision. -/
lemma ballSc_eval :
    processBallBallPair Rat.sqrt 1 0 ballScA ballScB = (ballScResA, ballScResB) := by
  have h100 : Rat.sqrt (100 : ℚ) = 10 := rat_sqrt_of_sq 100 10 (by norm_num) (by norm_num)
  have h121 : Rat.sqrt (121 : ℚ) = 11 := rat_sqrt_of_sq 121 11 (by norm_num) (by norm_num)
  norm_num [processBallBallPair, resolveCollision, separateObjects,
    resolveVelocities, handleBallBallCollision, ballScA, ballScB, ballScResA,
    ballScResB, BALL_BALL_BOUNCE, COLLISION_DAMPING, h100, h121, Ent.mk.injEq,
    Prod.ext_iff]

/-- Claim C5 (amended): resolveVelocities applies the impulse
j = -(1+restitution) (relVel . n) / (1/mA + 1/mB) with restitution
min(bounceA, bounceB) as plus-minus j n / m to each non-static side followed
by COLLISION_DAMPING — but only when the normal relative velocity
(vA - vB) . n is nonpositive; it returns both entities unchanged when that
quantity is positive, which is exactly the approaching case of the head-on
scenario.  Consequently the scenario velocities come from
handleBallBallCollision with the global restitution 0.8: A ends with
velocity (-4,0) and B with (4,0) (approximately swapped, scaled by 0.8), and
the positions are separated by only half the overlap, so the balls still
overlap (center distance 11 < radius sum 12). -/
theorem ballBall_resolution_characterization :
    (∀ (objA objB : Ent) (nx ny : ℚ),
      (objA.vx - objB.vx) * nx + (objA.vy - objB.vy) * ny ≤ 0 →
      objA.isStatic = false → objB.isStatic = false →
      (resolveVelocities objA objB nx ny).1.vx =
        (objA.vx +
          (-(1 + min objA.bounce objB.bounce) *
              ((objA.vx - objB.vx) * nx + (objA.vy - objB.vy) * ny) /
            (1 / objA.mass + 1 / objB.mass)) * nx / objA.mass) *
          COLLISION_DAMPING ∧
      (resolveVelocities objA objB nx ny).1.vy =
        (objA.vy +
          (-(1 + min objA.bounce objB.bounce) *
              ((objA.vx - objB.vx) * nx + (objA.vy - objB.vy) * ny) /
            (1 / objA.mass + 1 / objB.mass)) * ny / objA.mass) *
          COLLISION_DAMPING ∧
      (resolveVelocities objA objB nx ny).2.vx =
        (objB.vx -
          (-(1 + min objA.bounce objB.bounce) *
              ((objA.vx - objB.vx) * nx + (objA.vy - objB.vy) * ny) /
            (1 / objA.mass + 1 / objB.mass)) * nx / objB.mass) *
          COLLISION_DAMPING ∧
      (resolveVelocities objA objB nx ny).2.vy =
        (objB.vy -
          (-(1 + min objA.bounce objB.bounce) *
              ((objA.vx - objB.vx) * nx + (objA.vy - objB.vy) * ny) /
            (1 / objA.mass + 1 / objB.mass)) * ny / objB.mass) *
          COLLISION_DAMPING) ∧
    (∀ (objA objB : Ent) (nx ny : ℚ),
      (objA.vx - objB.vx) * nx + (objA.vy - objB.vy) * ny > 0 →
      resolveVelocities objA objB nx ny = (objA, objB)) ∧
    (processBallBallPair Rat.sqrt 1 0 ballScA ballScB = (ballScResA, ballScResB) ∧
      ballScResA.vx = -4 ∧ ballScResA.vy = 0 ∧
      ballScResB.vx = 4 ∧ ballScResB.vy = 0 ∧
      ballScResB.x - ballScResA.x = 11 ∧
      ballScResB.x - ballScResA.x < ballScResA.radius + ballScResB.radius) := by
  refine ⟨?_, ?_, ?_⟩
  · intro objA objB nx ny hvan hA hB
    simp only [resolveVelocities, hA, hB, Bool.false_eq_true, if_false,
      if_neg (not_lt.mpr hvan)]
    exact ⟨trivial, trivial, trivial, trivial⟩
  · intro objA objB nx ny hvan
    simp only [resolveVelocities, if_pos hvan]
  · refine ⟨ballSc_eval, ?_, ?_, ?_, ?_, ?_, ?_⟩ <;> norm_num [ballScResA, ballScResB]

/-- Witness for ballBall_resolution_characterization: a receding pair hits
the impulse branch and the approaching scenario pair is skipped. -/
theorem ballBall_resolution_witness :
    (resolveVelocities { x := 0, y := 0, vx := -1 : Ent}
        { x := 1, y := 0, vx := 1 : Ent} 1 0).1.vx = 247/400 ∧
    resolveVelocities ballScA ballScB 1 0 = (ballScA, ballScB) := by
  constructor
  · have h := (ballBall_resolution_characterization.1
      { x := 0, y := 0, vx := -1 : Ent} { x := 1, y := 0, vx := 1 : Ent} 1 0
      (by norm_num) rfl rfl).1
    rw [h]
    norm_num [BOUNCE, COLLISION_DAMPING]
  · exact ballBall_resolution_characterization.2.1 ballScA ballScB 1 0
      (by norm_num [ballScA, ballScB])

/-- Counterexample to claim C5 as stated: after the full ball-ball pair
processing of the head-on scenario the centers are 11 apart while the
radius sum is 12 — the balls STILL overlap — and the final horizontal speed
is 4, not the claimed 5 (the handler uses the global restitution 0.8, and
the half-overlap separation leaves penetration). -/
theorem ballBall_scenario_counterexample :
    ((processBallBallPair Rat.sqrt 1 0 ballScA ballScB).2.x -
        (processBallBallPair Rat.sqrt 1 0 ballScA ballScB).1.x <
      (processBallBallPair Rat.sqrt 1 0 ballScA ballScB).1.radius +
        (processBallBallPair Rat.sqrt 1 0 ballScA ballScB).2.radius) ∧
    (processBallBallPair Rat.sqrt 1 0 ballScA ballScB).1.vx ≠ -5 := by
  rw [ballSc_eval]
  norm_num [ballScResA, ballScResB]

/-- Claim C6 concerns the failing input: casting the ray from (0,0) to
(10,0) over the active object at (3,0) with radius 1/2 hits the object at
the sample point (3,0), whose distance to the center is exactly 0; the
normal is computed as 0/0 in both components — NaN (modelled as none), with
no fallback — and no sanity pass exists in PhysicsEngine.fixedUpdate to
replace it. -/
theorem raycast_nan_normal_at_center :
    raycast Rat.sqrt 0 0 10 0 [rayObj] =
      [{ objId := 7, px := 3, py := 0, distance := 3,
         normalX := none, normalY := none }] := by
  have h0 : Rat.sqrt (0 : ℚ) = 0 := rat_sqrt_of_sq 0 0 le_rfl (by norm_num)
  have h1 : Rat.sqrt (1 : ℚ) = 1 := rat_sqrt_of_sq 1 1 (by norm_num) (by norm_num)
  have h4 : Rat.sqrt (4 : ℚ) = 2 := rat_sqrt_of_sq 4 2 (by norm_num) (by norm_num)
  have h9 : Rat.sqrt (9 : ℚ) = 3 := rat_sqrt_of_sq 9 3 (by norm_num) (by norm_num)
  have h16 : Rat.sqrt (16 : ℚ) = 4 := rat_sqrt_of_sq 16 4 (by norm_num) (by norm_num)
  have h25 : Rat.sqrt (25 : ℚ) = 5 := rat_sqrt_of_sq 25 5 (by norm_num) (by norm_num)
  have h36 : Rat.sqrt (36 : ℚ) = 6 := rat_sqrt_of_sq 36 6 (by norm_num) (by norm_num)
  have h49 : Rat.sqrt (49 : ℚ) = 7 := rat_sqrt_of_sq 49 7 (by norm_num) (by norm_num)
  have h100 : Rat.sqrt (100 : ℚ) = 10 := rat_sqrt_of_sq 100 10 (by norm_num) (by norm_num)
  have ht : Int.toNat 10 = 10 := rfl
  norm_num [raycast, rayFirstHit, jdiv, rayObj, h0, h1, h4, h9, h16, h25, h36,
    h49, h100, ht, List.range_succ, List.filterMap_cons, RayHit.mk.injEq]

/-- Helper: the bucket-update fold of addObject appends the object to
exactly the buckets of the listed cells (once per occurrence). -/
lemma bucketsFold (o : ℕ) (l : List (ℤ × ℤ)) (bk : ℤ × ℤ → List ℕ) (key : ℤ × ℤ) :
    (l.foldl (fun b cell => fun k => if k = cell then b k ++ [o] else b k) bk) key =
      bk key ++ List.replicate (l.count key) o := by
  induction l generalizing bk with
  | nil => simp
  | cons c t ih =>
    rw [List.foldl_cons, ih]
    by_cases hc : key = c
    · simp [hc, List.count_cons, List.replicate_succ]
    · simp [hc, List.count_cons, Ne.symm hc]

/-- Helper: membership in getCells is exactly the clamped cell-range
condition. -/
lemma getCells_mem (g : Grid) (x y r : ℚ) (c : ℤ × ℤ) :
    c ∈ getCells g x y r ↔
      (max 0 ⌊(x - r) / g.cellSize⌋ ≤ c.1 ∧
       c.1 ≤ min (g.cols - 1) ⌊(x + r) / g.cellSize⌋ ∧
       max 0 ⌊(y - r) / g.cellSize⌋ ≤ c.2 ∧
       c.2 ≤ min (g.rows - 1) ⌊(y + r) / g.cellSize⌋) := by
  unfold getCells
  simp only [List.mem_flatMap, List.mem_map, List.mem_range]
  constructor
  · rintro ⟨i, hi, j, hj, hc⟩
    rw [← hc]
    refine ⟨?_, ?_, ?_, ?_⟩ <;> simp <;> omega
  · rintro ⟨h1, h2, h3, h4⟩
    refine ⟨(c.1 - max 0 ⌊(x - r) / g.cellSize⌋).toNat, by omega,
      (c.2 - max 0 ⌊(y - r) / g.cellSize⌋).toNat, by omega, ?_⟩
    rw [Prod.ext_iff]
    constructor <;> simp <;> omega

/-- Helper: the bucket of every cell key after addObject. -/
lemma addObject_buckets (g : Grid) (o : ℕ) (x y r : ℚ) (key : ℤ × ℤ) :
    (addObject g o x y r).buckets key =
      g.buckets key ++ List.replicate ((getCells g x y r).count key) o := by
  unfold addObject
  exact bucketsFold o (getCells g x y r) g.buckets key

/-- Helper: query membership is membership in some bucket of the query
range. -/
lemma getNearbyObjects_mem (g : Grid) (x y r : ℚ) (o : ℕ) :
    o ∈ getNearbyObjects g x y r ↔
      ∃ c ∈ getCells g x y r, o ∈ g.buckets c := by
  unfold getNearbyObjects
  simp [List.mem_dedup, List.mem_flatMap]

/-- Claim C9: SpatialGrid registration covers exactly the clamped cell
range [floor((x-r)/cellSize)..floor((x+r)/cellSize)] in both axes, in both
insert (addObject appends to exactly those buckets) and query
(getNearbyObjects reads exactly those buckets); in particular an entity of
radius 5 at (52,52) with cellSize 50 occupies the four cells
(0,0),(0,1),(1,0),(1,1) and is returned by queries anchored in each of
them. -/
theorem spatialGrid_cell_coverage :
    (∀ (g : Grid) (x y r : ℚ) (c : ℤ × ℤ),
      c ∈ getCells g x y r ↔
        (max 0 ⌊(x - r) / g.cellSize⌋ ≤ c.1 ∧
         c.1 ≤ min (g.cols - 1) ⌊(x + r) / g.cellSize⌋ ∧
         max 0 ⌊(y - r) / g.cellSize⌋ ≤ c.2 ∧
         c.2 ≤ min (g.rows - 1) ⌊(y + r) / g.cellSize⌋)) ∧
    (∀ (g : Grid) (o : ℕ) (x y r : ℚ) (key : ℤ × ℤ),
      (addObject g o x y r).buckets key =
        g.buckets key ++ List.replicate ((getCells g x y r).count key) o) ∧
    (∀ (g : Grid) (x y r : ℚ) (o : ℕ),
      o ∈ getNearbyObjects g x y r ↔ ∃ c ∈ getCells g x y r, o ∈ g.buckets c) ∧
    (getCells (mkGrid 600 700 50) 52 52 5 = [(0,0), (0,1), (1,0), (1,1)] ∧
      1 ∈ getNearbyObjects gridSc 25 25 1 ∧
      1 ∈ getNearbyObjects gridSc 75 25 1 ∧
      1 ∈ getNearbyObjects gridSc 25 75 1 ∧
      1 ∈ getNearbyObjects gridSc 75 75 1) := by
  have ht2 : Int.toNat 2 = 2 := rfl
  refine ⟨getCells_mem, addObject_buckets, getNearbyObjects_mem, ?_, ?_, ?_, ?_, ?_⟩
  · norm_num [getCells, mkGrid, ht2, List.range_succ]
  · norm_num [getNearbyObjects, gridSc, addObject, getCells, mkGrid, ht2,
      bucketsFold, List.range_succ, List.count_cons, List.mem_dedup,
      List.mem_flatMap, Prod.mk.injEq, -Prod.mk_zero_zero]
  · norm_num [getNearbyObjects, gridSc, addObject, getCells, mkGrid, ht2,
      bucketsFold, List.range_succ, List.count_cons, List.mem_dedup,
      List.mem_flatMap, Prod.mk.injEq, -Prod.mk_zero_zero]
  · norm_num [getNearbyObjects, gridSc, addObject, getCells, mkGrid, ht2,
      bucketsFold, List.range_succ, List.count_cons, List.mem_dedup,
      List.mem_flatMap, Prod.mk.injEq, -Prod.mk_zero_zero]
  · norm_num [getNearbyObjects, gridSc, addObject, getCells, mkGrid, ht2,
      bucketsFold, List.range_succ, List.count_cons, List.mem_dedup,
      List.mem_flatMap, Prod.mk.injEq, -Prod.mk_zero_zero]

/-- Witness for spatialGrid_cell_coverage: the range condition at cell
(0,1) of the scenario insert, and the bucket equation at cell (0,0). -/
theorem spatialGrid_cell_coverage_witness :
    ((0, 1) : ℤ × ℤ) ∈ getCells (mkGrid 600 700 50) 52 52 5 ∧
    (addObject (mkGrid 600 700 50) 1 52 52 5).buckets (0, 0) =
      List.replicate ((getCells (mkGrid 600 700 50) 52 52 5).count (0, 0)) 1 := by
  constructor
  · apply (spatialGrid_cell_coverage.1 (mkGrid 600 700 50) 52 52 5 (0, 1)).mpr
    norm_num [mkGrid]
  · have h := spatialGrid_cell_coverage.2.1 (mkGrid 600 700 50) 1 52 52 5 (0, 0)
    simpa [mkGrid] using h

end CyberPlinko
